import Mathlib

/-!
Shallow embedding of `src/materials/BoxBlurMaterial.js` (a box blur material
configurator built on a shader-material base class).  JavaScript numbers are
modelled as rationals; `Number.prototype.toFixed` becomes rounding to a fixed
number of decimal digits; the `defines` dictionary becomes a record whose
optional entries model key presence; arbitrary JavaScript values handed to
uniform slots and to the `bilateral` setter become the `JSValue` type.
-/

namespace BoxBlur

/-- A JavaScript value, as far as the configurator inspects one: the only
tests the source performs on opaque inputs are `value !== null` and
truthiness of an options object, so we keep a small universe with a
distinguished `null`, `undefined`, booleans, numbers and opaque objects. -/
inductive JSValue where
  | null : JSValue
  | undefined : JSValue
  | bool : Bool → JSValue
  | num : ℚ → JSValue
  | obj : ℕ → JSValue
deriving DecidableEq, Repr

/-- Truncation toward zero, as used by the JavaScript `%` operator. -/
def jsTrunc (q : ℚ) : ℤ :=
  if 0 ≤ q then ⌊q⌋ else ⌈q⌉

/-- The JavaScript remainder operator `x % y` (sign of the dividend). -/
def jsMod (x y : ℚ) : ℚ :=
  x - y * jsTrunc (x / y)

/-- `x.toFixed(d)` followed by re-parsing with `Number`: round `x` to `d`
decimal digits, ties away from the smaller value (ECMAScript picks the
larger candidate, which is what `round` does on rationals). -/
def toFixedQ (d : ℕ) (x : ℚ) : ℚ :=
  (round (x * 10 ^ d) : ℤ) / 10 ^ d

/-- A two-component vector of numbers (`three`'s `Vector2`). -/
structure Vector2Q where
  x : ℚ
  y : ℚ
deriving DecidableEq, Repr

/-- The `defines` dictionary of the material.  `DEPTH_PACKING` and
`DISTANCE_THRESHOLD` are written in the `super` call and never deleted, so
they are plain values; the numeric kernel defines and
`MAX_VARYING_VECTORS` may be absent before their setters run; the three
flag defines (`NORMAL_DEPTH`, `BILATERAL`, `PERSPECTIVE_CAMERA`) are only
ever set to `"1"` or deleted, so presence is all that matters. -/
structure Defines where
  DEPTH_PACKING : ℚ
  DISTANCE_THRESHOLD : ℚ
  MAX_VARYING_VECTORS : Option ℚ
  KERNEL_SIZE : Option ℚ
  KERNEL_SIZE_HALF : Option ℚ
  KERNEL_SIZE_SQ : Option ℚ
  KERNEL_SIZE_SQ_HALF : Option ℚ
  INV_KERNEL_SIZE_SQ : Option ℚ
  NORMAL_DEPTH : Bool
  BILATERAL : Bool
  PERSPECTIVE_CAMERA : Bool
deriving DecidableEq, Repr

/-- The `uniforms` dictionary of the material. -/
structure Uniforms where
  inputBuffer : JSValue
  depthBuffer : JSValue
  normalDepthBuffer : JSValue
  texelSize : Vector2Q
  cameraNearFar : Vector2Q
  scale : ℚ
deriving DecidableEq, Repr

/-- Observable state of a `BoxBlurMaterial`. -/
structure Material where
  defines : Defines
  uniforms : Uniforms
  needsUpdate : Bool
deriving DecidableEq, Repr

/-- The state produced by the `super(...)` call in the constructor, before
the constructor body runs its own setters. -/
def superState : Material :=
  { defines :=
      { DEPTH_PACKING := 0
        DISTANCE_THRESHOLD := 1 / 10
        MAX_VARYING_VECTORS := none
        KERNEL_SIZE := none
        KERNEL_SIZE_HALF := none
        KERNEL_SIZE_SQ := none
        KERNEL_SIZE_SQ_HALF := none
        INV_KERNEL_SIZE_SQ := none
        NORMAL_DEPTH := false
        BILATERAL := false
        PERSPECTIVE_CAMERA := false }
    uniforms :=
      { inputBuffer := JSValue.null
        depthBuffer := JSValue.null
        normalDepthBuffer := JSValue.null
        texelSize := ⟨0, 0⟩
        cameraNearFar := ⟨0, 0⟩
        scale := 1 }
    needsUpdate := false }

/-- `set maxVaryingVectors(value)`: writes the define, does not touch
`needsUpdate`. -/
def set_maxVaryingVectors (value : ℚ) (m : Material) : Material :=
  { m with defines := { m.defines with MAX_VARYING_VECTORS := some (toFixedQ 0 value) } }

/-- `get kernelSize()`: `Number(this.defines.KERNEL_SIZE)`; `none` stands
for the `NaN` produced when the define is absent. -/
def kernelSize_get (m : Material) : Option ℚ :=
  m.defines.KERNEL_SIZE

/-- `set kernelSize(value)`: throws on `value % 2 === 0`, otherwise writes
the five kernel defines and marks the material for recompilation. -/
def set_kernelSize (value : ℚ) (m : Material) : Except String Material :=
  if jsMod value 2 = 0 then
    Except.error "The kernel size must be an odd number"
  else
    Except.ok
      { m with
        defines :=
          { m.defines with
            KERNEL_SIZE := some (toFixedQ 0 value)
            KERNEL_SIZE_HALF := some (toFixedQ 0 (⌊value / 2⌋ : ℚ))
            KERNEL_SIZE_SQ := some (toFixedQ 0 (value ^ 2))
            KERNEL_SIZE_SQ_HALF := some (toFixedQ 0 (⌊value ^ 2 / 2⌋ : ℚ))
            INV_KERNEL_SIZE_SQ := some (toFixedQ 6 (1 / value ^ 2)) }
        needsUpdate := true }

/-- `set bilateral(value)`: any value other than `null` (including the
boolean `false`) creates the `BILATERAL` define; `null` deletes it; either
way the material is marked for recompilation. -/
def set_bilateral (value : JSValue) (m : Material) : Material :=
  { m with
    defines := { m.defines with BILATERAL := value ≠ JSValue.null }
    needsUpdate := true }

/-- `get bilateral()`: `this.defines.BILATERAL !== undefined`. -/
def bilateral_get (m : Material) : Bool :=
  m.defines.BILATERAL

/-- JavaScript exception semantics for the throwing setter: when the
assignment `material.kernelSize = value` throws, the object is left as it
was (the check precedes every field write in the source). -/
def trySet_kernelSize (value : ℚ) (m : Material) : Material :=
  match set_kernelSize value m with
  | Except.ok m2 => m2
  | Except.error _ => m

/-- `constructor({ bilateral = false, kernelSize = 5 } = {})`: runs the
`super` call, then `this.bilateral = bilateral`, `this.kernelSize =
kernelSize` (which can throw), `this.maxVaryingVectors = 8`. -/
def mkBoxBlurMaterial (bilateral : JSValue) (kernelSize : ℚ) : Except String Material :=
  (set_kernelSize kernelSize (set_bilateral bilateral superState)).map
    (set_maxVaryingVectors 8)

/-- `new BoxBlurMaterial()`: both option defaults apply. -/
def mkDefaultMaterial : Except String Material :=
  mkBoxBlurMaterial (JSValue.bool false) 5

/-- `get scale()`. -/
def scale_get (m : Material) : ℚ :=
  m.uniforms.scale

/-- `set scale(value)`. -/
def set_scale (value : ℚ) (m : Material) : Material :=
  { m with uniforms := { m.uniforms with scale := value } }

/-- `get near()` (private accessor). -/
def near (m : Material) : ℚ :=
  m.uniforms.cameraNearFar.x

/-- `get far()` (private accessor). -/
def far (m : Material) : ℚ :=
  m.uniforms.cameraNearFar.y

/-- `set inputBuffer(value)`. -/
def set_inputBuffer (value : JSValue) (m : Material) : Material :=
  { m with uniforms := { m.uniforms with inputBuffer := value } }

/-- `set depthBuffer(value)`. -/
def set_depthBuffer (value : JSValue) (m : Material) : Material :=
  { m with uniforms := { m.uniforms with depthBuffer := value } }

/-- `set normalDepthBuffer(value)`: stores the uniform, creates the
`NORMAL_DEPTH` define when the value is not `null` and deletes it when it
is, then marks the material for recompilation. -/
def set_normalDepthBuffer (value : JSValue) (m : Material) : Material :=
  { m with
    uniforms := { m.uniforms with normalDepthBuffer := value }
    defines := { m.defines with NORMAL_DEPTH := value ≠ JSValue.null }
    needsUpdate := true }

/-- `set depthPacking(value)`: writes the `DEPTH_PACKING` define and marks
the material for recompilation. -/
def set_depthPacking (value : ℚ) (m : Material) : Material :=
  { m with
    defines := { m.defines with DEPTH_PACKING := toFixedQ 0 value }
    needsUpdate := true }

/-- Modelled from the spec: `src/utils/orthographicDepthToViewZ.js` is not
part of the provided sources.  The spec asks only for a pure, strictly
monotonic mapping from a normalized orthographic depth sample back to
linear view-space depth, inverse to `viewZToOrthographicDepth`, and
suggests a linear rescale of `[0,1]` onto `[-near,-far]`. -/
def orthographicDepthToViewZ (orthoZ nearQ farQ : ℚ) : ℚ :=
  orthoZ * (nearQ - farQ) - nearQ

/-- Modelled from the spec: `src/utils/viewZToOrthographicDepth.js` is not
part of the provided sources.  Linear rescale of view-space depth
`[-near,-far]` onto `[0,1]`, the inverse of `orthographicDepthToViewZ`. -/
def viewZToOrthographicDepth (viewZ nearQ farQ : ℚ) : ℚ :=
  (viewZ + nearQ) / (nearQ - farQ)

/-- `get worldDistanceThreshold()`:
`-orthographicDepthToViewZ(Number(this.defines.DISTANCE_THRESHOLD), near, far)`. -/
def worldDistanceThreshold_get (m : Material) : ℚ :=
  -(orthographicDepthToViewZ m.defines.DISTANCE_THRESHOLD (near m) (far m))

/-- `set worldDistanceThreshold(value)`: encodes `-value`, stores it with
12 decimal digits, marks the material for recompilation. -/
def set_worldDistanceThreshold (value : ℚ) (m : Material) : Material :=
  let threshold := viewZToOrthographicDepth (-value) (near m) (far m)
  { m with
    defines := { m.defines with DISTANCE_THRESHOLD := toFixedQ 12 threshold }
    needsUpdate := true }

/-- The slice of a camera object the configurator reads: near and far
plane distances and whether `camera instanceof PerspectiveCamera`. -/
structure Camera where
  near : ℚ
  far : ℚ
  isPerspectiveCamera : Bool
deriving DecidableEq, Repr

/-- `copyCameraSettings(camera)`: falsy camera (`none`) is a no-op;
otherwise copies the near/far planes into the `cameraNearFar` uniform,
creates or deletes the `PERSPECTIVE_CAMERA` define according to the
camera's projection kind, and marks the material for recompilation. -/
def copyCameraSettings (camera : Option Camera) (m : Material) : Material :=
  match camera with
  | none => m
  | some c =>
      { m with
        uniforms := { m.uniforms with cameraNearFar := ⟨c.near, c.far⟩ }
        defines := { m.defines with PERSPECTIVE_CAMERA := c.isPerspectiveCamera }
        needsUpdate := true }

/-- `setSize(width, height)`: stores the reciprocal viewport size in the
`texelSize` uniform; nothing else is touched. -/
def setSize (width height : ℚ) (m : Material) : Material :=
  { m with uniforms := { m.uniforms with texelSize := ⟨1 / width, 1 / height⟩ } }

/-- The material obtained by assigning kernel size 3 to a freshly reset
state: the base state of several concrete scenarios below. -/
def kernelSize3State : Material :=
  trySet_kernelSize 3 superState

lemma jsTrunc_intCast (z : ℤ) : jsTrunc ((z : ℤ) : ℚ) = z := by
  unfold jsTrunc
  split <;> simp

lemma jsMod_two_even (k : ℤ) : jsMod ((k + k : ℤ) : ℚ) 2 = 0 := by
  have hdiv : ((k + k : ℤ) : ℚ) / 2 = ((k : ℤ) : ℚ) := by push_cast; ring
  unfold jsMod
  rw [hdiv, jsTrunc_intCast]
  push_cast
  ring

lemma jsMod_two_odd_ne (k : ℤ) : jsMod ((2 * k + 1 : ℤ) : ℚ) 2 ≠ 0 := by
  have hdiv : ((2 * k + 1 : ℤ) : ℚ) / 2 = (k : ℚ) + 1 / 2 := by push_cast; ring
  unfold jsMod jsTrunc
  rw [hdiv]
  split
  · have hf : ⌊(k : ℚ) + 1 / 2⌋ = k + 0 := by
      rw [Int.floor_int_add]
      norm_num
    rw [hf]
    push_cast
    intro hcon
    linarith
  · have hc : ⌈(k : ℚ) + 1 / 2⌉ = k + 1 := by
      rw [add_comm, Int.ceil_add_int, add_comm]
      congr 1
      rw [Int.ceil_eq_iff]
      norm_num
    rw [hc]
    push_cast
    intro hcon
    linarith

lemma jsMod_two_eq_zero_iff (n : ℤ) : jsMod ((n : ℤ) : ℚ) 2 = 0 ↔ Even n := by
  constructor
  · intro h
    by_contra hne
    rw [Int.not_even_iff_odd] at hne
    obtain ⟨k, hk⟩ := hne
    exact jsMod_two_odd_ne k (hk ▸ h)
  · rintro ⟨k, hk⟩
    rw [hk]
    exact jsMod_two_even k

lemma toFixedQ_zero (x : ℚ) : toFixedQ 0 x = round x := by
  simp [toFixedQ]

lemma toFixedQ_zero_intCast (z : ℤ) : toFixedQ 0 ((z : ℤ) : ℚ) = ((z : ℤ) : ℚ) := by
  rw [toFixedQ_zero, round_intCast]

lemma abs_toFixedQ_sub_le (d : ℕ) (x : ℚ) : |toFixedQ d x - x| ≤ 1 / (2 * 10 ^ d) := by
  have h10 : (0 : ℚ) < 10 ^ d := by positivity
  have key : toFixedQ d x - x = ((round (x * 10 ^ d) : ℤ) - x * 10 ^ d) / 10 ^ d := by
    rw [toFixedQ]
    field_simp
    ring
  rw [key, abs_div, abs_of_pos h10, div_le_div_iff₀ h10 (by positivity)]
  have h := abs_sub_round (x * 10 ^ d)
  rw [abs_sub_comm] at h
  nlinarith

lemma jsMod_three : jsMod (3 : ℚ) 2 = 1 := by
  unfold jsMod jsTrunc
  norm_num

lemma jsMod_five : jsMod (5 : ℚ) 2 = 1 := by
  unfold jsMod jsTrunc
  norm_num

lemma set_kernelSize_three : set_kernelSize (3 : ℚ) superState = Except.ok kernelSize3State := by
  have hmod : ¬ jsMod (3 : ℚ) 2 = 0 := by
    rw [jsMod_three]
    norm_num
  unfold kernelSize3State trySet_kernelSize
  rw [set_kernelSize, if_neg hmod]

/-- Claim C1: for every integer n, setting the kernel size to n succeeds
iff n is odd; on success the stored derived constants satisfy
KERNEL_SIZE_HALF = floor(n/2), KERNEL_SIZE_SQ = n*n, KERNEL_SIZE_SQ_HALF
= floor(n*n/2), INV_KERNEL_SIZE_SQ within 10^-6 of 1/(n*n), and reading
the kernel size back returns n. -/
theorem kernelSize_contract (m : Material) (n : ℤ) :
    ((set_kernelSize ((n : ℤ) : ℚ) m).isOk = true ↔ Odd n) ∧
    (∀ m2 : Material, set_kernelSize ((n : ℤ) : ℚ) m = Except.ok m2 →
      m2.defines.KERNEL_SIZE_HALF = some ((⌊((n : ℤ) : ℚ) / 2⌋ : ℤ) : ℚ) ∧
      m2.defines.KERNEL_SIZE_SQ = some (((n : ℤ) : ℚ) * ((n : ℤ) : ℚ)) ∧
      m2.defines.KERNEL_SIZE_SQ_HALF
        = some ((⌊((n : ℤ) : ℚ) * ((n : ℤ) : ℚ) / 2⌋ : ℤ) : ℚ) ∧
      |m2.defines.INV_KERNEL_SIZE_SQ.getD 0 - 1 / (((n : ℤ) : ℚ) * ((n : ℤ) : ℚ))|
        ≤ 1 / 10 ^ 6 ∧
      kernelSize_get m2 = some ((n : ℤ) : ℚ)) := by
  by_cases hpar : Even n
  · have hmod : jsMod ((n : ℤ) : ℚ) 2 = 0 := (jsMod_two_eq_zero_iff n).2 hpar
    constructor
    · rw [set_kernelSize, if_pos hmod]
      simp [Except.isOk, Except.toBool, Int.not_odd_iff_even.2 hpar]
    · intro m2 hm2
      rw [set_kernelSize, if_pos hmod] at hm2
      exact absurd hm2 (by simp)
  · have hmod : ¬ jsMod ((n : ℤ) : ℚ) 2 = 0 := fun h0 => hpar ((jsMod_two_eq_zero_iff n).1 h0)
    have hodd : Odd n := Int.not_even_iff_odd.1 hpar
    constructor
    · rw [set_kernelSize, if_neg hmod]
      simp [Except.isOk, Except.toBool, hodd]
    · intro m2 hm2
      rw [set_kernelSize, if_neg hmod, Except.ok.injEq] at hm2
      subst hm2
      have hsq : ((n : ℤ) : ℚ) ^ 2 = ((n ^ 2 : ℤ) : ℚ) := by push_cast; ring
      refine ⟨?_, ?_, ?_, ?_, ?_⟩
      · simp [toFixedQ_zero_intCast]
      · simp only [hsq, toFixedQ_zero_intCast]
        push_cast
        ring_nf
      · have hmul : ((n : ℤ) : ℚ) * ((n : ℤ) : ℚ) = ((n : ℤ) : ℚ) ^ 2 := by ring
        simp only [hmul, toFixedQ_zero_intCast]
      · have hmul : ((n : ℤ) : ℚ) * ((n : ℤ) : ℚ) = ((n : ℤ) : ℚ) ^ 2 := by ring
        simp only [Option.getD_some, hmul]
        exact le_trans (abs_toFixedQ_sub_le 6 _) (by norm_num)
      · simp [kernelSize_get, toFixedQ_zero_intCast]

/-- Witness for C1: kernel size 3 is accepted on the freshly constructed
base state and reads back as 3. -/
theorem kernelSize_contract_witness :
    (set_kernelSize ((3 : ℤ) : ℚ) superState).isOk = true ∧
    kernelSize_get kernelSize3State = some ((3 : ℤ) : ℚ) := by
  have h := kernelSize_contract superState 3
  have hok : set_kernelSize ((3 : ℤ) : ℚ) superState = Except.ok kernelSize3State := by
    rw [show (((3 : ℤ) : ℤ) : ℚ) = (3 : ℚ) by norm_num]
    exact set_kernelSize_three
  exact ⟨h.1.2 ⟨1, by norm_num⟩, (h.2 kernelSize3State hok).2.2.2.2⟩

/-- Claim C2 (amended): setSize never sets the dirty flag; a successful
kernel-size assignment, setting bilateral, setting the normal-depth
buffer, setting the depth packing strategy and syncing a non-null camera
always set it; setting maxVaryingVectors writes its define without
touching the dirty flag. -/
theorem dirty_flag_protocol (m m2 : Material) (w h v s u : ℚ) (b nd : JSValue) (c : Camera) :
    (setSize w h m).needsUpdate = m.needsUpdate ∧
    (set_kernelSize v m = Except.ok m2 → m2.needsUpdate = true) ∧
    (set_bilateral b m).needsUpdate = true ∧
    (set_normalDepthBuffer nd m).needsUpdate = true ∧
    (set_depthPacking s m).needsUpdate = true ∧
    (copyCameraSettings (some c) m).needsUpdate = true ∧
    (set_maxVaryingVectors u m).needsUpdate = m.needsUpdate := by
  refine ⟨rfl, ?_, rfl, rfl, rfl, rfl, rfl⟩
  intro hm2
  unfold set_kernelSize at hm2
  split at hm2
  · exact absurd hm2 (by simp)
  · rw [Except.ok.injEq] at hm2
    subst hm2
    rfl

/-- Counterexample to C2 as stated: setting maxVaryingVectors on a
material whose dirty flag is clear leaves the flag clear. -/
theorem dirty_flag_protocol_cex :
    (set_maxVaryingVectors 16 superState).needsUpdate = false := rfl

/-- Witness for C2 on concrete inputs. -/
theorem dirty_flag_protocol_witness :
    (setSize 2 2 superState).needsUpdate = superState.needsUpdate ∧
    kernelSize3State.needsUpdate = true ∧
    (set_maxVaryingVectors 8 superState).needsUpdate = superState.needsUpdate := by
  have h := dirty_flag_protocol superState kernelSize3State 2 2 3 0 8
    JSValue.null JSValue.null ⟨1, 100, true⟩
  exact ⟨h.1, h.2.1 set_kernelSize_three, h.2.2.2.2.2.2⟩

/-- Claim C3 (code bug in the source): default construction should read
back kernel size 5 and bilateral false, but the bilateral setter tests
`value !== null`, so the default value `false` still creates the
BILATERAL define and the getter reads true. -/
theorem default_construction_reads :
    mkDefaultMaterial.map (fun m => (kernelSize_get m, bilateral_get m))
      = Except.ok (some 5, true) := by
  have hmod : ¬ jsMod (5 : ℚ) 2 = 0 := by
    rw [jsMod_five]
    norm_num
  unfold mkDefaultMaterial mkBoxBlurMaterial
  rw [set_kernelSize, if_neg hmod]
  simp only [Except.map, kernelSize_get, bilateral_get, set_maxVaryingVectors,
    set_bilateral, superState, Except.ok.injEq, Prod.mk.injEq]
  constructor
  · rw [toFixedQ_zero, round_eq]
    norm_num
  · rfl

/-- Claim C4: assigning an even kernel size raises the validation error
synchronously and the material is left exactly as it was. -/
theorem kernelSize_even_atomic (m : Material) (n : ℤ) (h : Even n) :
    set_kernelSize ((n : ℤ) : ℚ) m = Except.error "The kernel size must be an odd number" ∧
    trySet_kernelSize ((n : ℤ) : ℚ) m = m := by
  have hmod : jsMod ((n : ℤ) : ℚ) 2 = 0 := (jsMod_two_eq_zero_iff n).2 h
  constructor
  · rw [set_kernelSize, if_pos hmod]
  · unfold trySet_kernelSize
    rw [set_kernelSize, if_pos hmod]

/-- Witness for C4: setKernelSize(4) after setKernelSize(3) is rejected
and the state still reads kernel size 3. -/
theorem kernelSize_even_atomic_witness :
    Even (4 : ℤ) ∧
    set_kernelSize ((4 : ℤ) : ℚ) kernelSize3State
      = Except.error "The kernel size must be an odd number" ∧
    trySet_kernelSize ((4 : ℤ) : ℚ) kernelSize3State = kernelSize3State ∧
    kernelSize_get kernelSize3State = some 3 := by
  have h4 : Even (4 : ℤ) := ⟨2, by norm_num⟩
  have h := kernelSize_even_atomic kernelSize3State 4 h4
  refine ⟨h4, h.1, h.2, ?_⟩
  have hmod : ¬ jsMod (3 : ℚ) 2 = 0 := by
    rw [jsMod_three]
    norm_num
  unfold kernelSize_get kernelSize3State trySet_kernelSize
  rw [set_kernelSize, if_neg hmod]
  simp only [toFixedQ_zero]
  rw [round_eq]
  norm_num

/-- Claim C5 (amended): with a camera synced so that near < far, setting a
positive world distance threshold v and reading it back differs from v by
at most (far - near) / (2 * 10^12); whenever far - near ≤ 2 * 10^6 * v
this is within the claimed 10^-6 relative tolerance, which covers the
near 1 / far 100, v = 5 scenario. -/
theorem worldDistanceThreshold_roundtrip (m : Material) (p : Bool) (a b v : ℚ)
    (hab : a < b) (hv : 0 < v) (hrange : b - a ≤ 2 * 10 ^ 6 * v) :
    |worldDistanceThreshold_get
        (set_worldDistanceThreshold v (copyCameraSettings (some ⟨a, b, p⟩) m)) - v|
      ≤ (b - a) / (2 * 10 ^ 12) ∧
    |worldDistanceThreshold_get
        (set_worldDistanceThreshold v (copyCameraSettings (some ⟨a, b, p⟩) m)) - v|
      ≤ 1 / 10 ^ 6 * v := by
  have hne : a - b ≠ 0 := by
    intro h0
    linarith
  have hget : worldDistanceThreshold_get
      (set_worldDistanceThreshold v (copyCameraSettings (some ⟨a, b, p⟩) m))
      = -(toFixedQ 12 ((-v + a) / (a - b)) * (a - b) - a) := by
    simp [worldDistanceThreshold_get, set_worldDistanceThreshold, copyCameraSettings,
      viewZToOrthographicDepth, orthographicDepthToViewZ, near, far]
  have hkey : -(toFixedQ 12 ((-v + a) / (a - b)) * (a - b) - a) - v
      = -((toFixedQ 12 ((-v + a) / (a - b)) - (-v + a) / (a - b)) * (a - b)) := by
    field_simp
    ring
  have habs : |worldDistanceThreshold_get
      (set_worldDistanceThreshold v (copyCameraSettings (some ⟨a, b, p⟩) m)) - v|
      = |toFixedQ 12 ((-v + a) / (a - b)) - (-v + a) / (a - b)| * (b - a) := by
    rw [hget, hkey, abs_neg, abs_mul, abs_of_neg (by linarith : a - b < 0)]
    ring
  have hstep : |toFixedQ 12 ((-v + a) / (a - b)) - (-v + a) / (a - b)| * (b - a)
      ≤ 1 / (2 * 10 ^ 12) * (b - a) :=
    mul_le_mul_of_nonneg_right (abs_toFixedQ_sub_le 12 _) (by linarith)
  constructor
  · rw [habs]
    refine le_trans hstep ?_
    rw [div_eq_mul_inv]
    ring_nf
    exact le_refl _
  · rw [habs]
    refine le_trans hstep ?_
    linarith

/-- Counterexample to C5 as stated: with camera near 1, far 10^10 + 1
synced (near < far) and threshold v = 201/200 inside [near, far], the
read-back value misses v by 1/200, far beyond 10^-6 relative tolerance,
because the 12-digit rounding of the encoded threshold is amplified by
the huge camera range. -/
theorem worldDistanceThreshold_roundtrip_cex :
    (1 : ℚ) < 10000000001 ∧ (1 : ℚ) ≤ 201 / 200 ∧ (201 / 200 : ℚ) ≤ 10000000001 ∧
    ¬ (|worldDistanceThreshold_get (set_worldDistanceThreshold (201 / 200)
          (copyCameraSettings (some ⟨1, 10000000001, true⟩) superState)) - 201 / 200|
        ≤ 1 / 10 ^ 6 * (201 / 200)) := by
  refine ⟨by norm_num, by norm_num, by norm_num, ?_⟩
  have hval : worldDistanceThreshold_get (set_worldDistanceThreshold (201 / 200)
      (copyCameraSettings (some ⟨1, 10000000001, true⟩) superState)) = 101 / 100 := by
    simp only [worldDistanceThreshold_get, set_worldDistanceThreshold, copyCameraSettings,
      viewZToOrthographicDepth, orthographicDepthToViewZ, toFixedQ, near, far, superState]
    rw [round_eq]
    norm_num
  rw [hval, show (101 / 100 : ℚ) - 201 / 200 = 1 / 200 by norm_num,
    abs_of_pos (by norm_num : (0 : ℚ) < 1 / 200)]
  norm_num

/-- Witness for C5 at the spec scenario: near 1, far 100, threshold 5. -/
theorem worldDistanceThreshold_roundtrip_witness :
    (1 : ℚ) < 100 ∧ (0 : ℚ) < 5 ∧ (100 : ℚ) - 1 ≤ 2 * 10 ^ 6 * 5 ∧
    |worldDistanceThreshold_get (set_worldDistanceThreshold 5
        (copyCameraSettings (some ⟨1, 100, true⟩) superState)) - 5| ≤ 1 / 10 ^ 6 * 5 :=
  ⟨by norm_num, by norm_num, by norm_num,
   (worldDistanceThreshold_roundtrip superState true 1 100 5
      (by norm_num) (by norm_num) (by norm_num)).2⟩

/-- Claim C6: syncing with a null camera is an error-free no-op; syncing a
non-null camera stores its near/far pair in the cameraNearFar uniform,
sets the perspective define exactly when the camera projection is
perspective, and marks the configuration dirty. -/
theorem copyCameraSettings_contract (m : Material) (c : Camera) :
    copyCameraSettings none m = m ∧
    (copyCameraSettings (some c) m).uniforms.cameraNearFar = ⟨c.near, c.far⟩ ∧
    (copyCameraSettings (some c) m).defines.PERSPECTIVE_CAMERA = c.isPerspectiveCamera ∧
    (copyCameraSettings (some c) m).needsUpdate = true :=
  ⟨rfl, rfl, rfl, rfl⟩

/-- Claim C7: setting the normal-depth buffer stores the handle, raises
the NORMAL_DEPTH flag exactly when the handle is non-null, marks the
configuration dirty, and leaves the plain depth-buffer reference alone. -/
theorem normalDepthBuffer_contract (m : Material) (v : JSValue) :
    (set_normalDepthBuffer v m).uniforms.normalDepthBuffer = v ∧
    ((set_normalDepthBuffer v m).defines.NORMAL_DEPTH = true ↔ v ≠ JSValue.null) ∧
    (set_normalDepthBuffer v m).needsUpdate = true ∧
    (set_normalDepthBuffer v m).uniforms.depthBuffer = m.uniforms.depthBuffer := by
  refine ⟨rfl, ?_, rfl, rfl⟩
  simp [set_normalDepthBuffer]

/-- Witness for C7: a non-null handle raises the flag, null lowers it. -/
theorem normalDepthBuffer_contract_witness :
    (set_normalDepthBuffer (JSValue.obj 0) superState).defines.NORMAL_DEPTH = true ∧
    (set_normalDepthBuffer JSValue.null superState).defines.NORMAL_DEPTH = false := by
  have h1 := (normalDepthBuffer_contract superState (JSValue.obj 0)).2.1
  have h2 := (normalDepthBuffer_contract superState JSValue.null).2.1
  refine ⟨h1.2 (by decide), ?_⟩
  rw [Bool.eq_false_iff]
  intro hb
  exact h2.1 hb rfl

/-- Claim C8: for positive width and height, setSize stores the reciprocal
sizes in texelSize and mutates nothing else, dirty flag included. -/
theorem setSize_contract (m : Material) (w h : ℚ) (hw : 0 < w) (hh : 0 < h) :
    (setSize w h m).uniforms.texelSize = ⟨1 / w, 1 / h⟩ ∧
    (setSize w h m).defines = m.defines ∧
    (setSize w h m).needsUpdate = m.needsUpdate ∧
    (setSize w h m).uniforms.inputBuffer = m.uniforms.inputBuffer ∧
    (setSize w h m).uniforms.depthBuffer = m.uniforms.depthBuffer ∧
    (setSize w h m).uniforms.normalDepthBuffer = m.uniforms.normalDepthBuffer ∧
    (setSize w h m).uniforms.cameraNearFar = m.uniforms.cameraNearFar ∧
    (setSize w h m).uniforms.scale = m.uniforms.scale :=
  ⟨rfl, rfl, rfl, rfl, rfl, rfl, rfl, rfl⟩

/-- Witness for C8 at width = height = 2. -/
theorem setSize_contract_witness :
    (0 : ℚ) < 2 ∧
    (setSize 2 2 superState).uniforms.texelSize = ⟨1 / 2, 1 / 2⟩ ∧
    (setSize 2 2 superState).needsUpdate = superState.needsUpdate :=
  ⟨by norm_num, (setSize_contract superState 2 2 (by norm_num) (by norm_num)).1,
   (setSize_contract superState 2 2 (by norm_num) (by norm_num)).2.2.1⟩

/-- Claim C9: assigning any non-null value to bilateral (the boolean false
included) makes the getter read true; the getter reads false exactly
after assigning null. -/
theorem bilateral_observed (m : Material) (v : JSValue) :
    (bilateral_get (set_bilateral v m) = true ↔ v ≠ JSValue.null) ∧
    (bilateral_get (set_bilateral v m) = false ↔ v = JSValue.null) := by
  constructor
  · simp [bilateral_get, set_bilateral]
  · simp [bilateral_get, set_bilateral, decide_eq_false_iff_not]

/-- Witness for C9: assigning the boolean false reads back true, and
assigning null reads back false. -/
theorem bilateral_observed_witness :
    bilateral_get (set_bilateral (JSValue.bool false) superState) = true ∧
    bilateral_get (set_bilateral JSValue.null superState) = false :=
  ⟨(bilateral_observed superState (JSValue.bool false)).1.2 (by decide),
   (bilateral_observed superState JSValue.null).2.2 rfl⟩

/-- Claim C10: the input-buffer and depth-buffer setters change only their
own uniform reference: defines, the dirty flag and every other field stay
untouched, for every handle value including null. -/
theorem buffer_setters_frame_only (m : Material) (v w : JSValue) :
    (set_inputBuffer v m).uniforms.inputBuffer = v ∧
    (set_inputBuffer v m).defines = m.defines ∧
    (set_inputBuffer v m).needsUpdate = m.needsUpdate ∧
    (set_inputBuffer v m).uniforms.depthBuffer = m.uniforms.depthBuffer ∧
    (set_inputBuffer v m).uniforms.normalDepthBuffer = m.uniforms.normalDepthBuffer ∧
    (set_inputBuffer v m).uniforms.texelSize = m.uniforms.texelSize ∧
    (set_inputBuffer v m).uniforms.cameraNearFar = m.uniforms.cameraNearFar ∧
    (set_inputBuffer v m).uniforms.scale = m.uniforms.scale ∧
    (set_depthBuffer w m).uniforms.depthBuffer = w ∧
    (set_depthBuffer w m).defines = m.defines ∧
    (set_depthBuffer w m).needsUpdate = m.needsUpdate ∧
    (set_depthBuffer w m).uniforms.inputBuffer = m.uniforms.inputBuffer ∧
    (set_depthBuffer w m).uniforms.normalDepthBuffer = m.uniforms.normalDepthBuffer ∧
    (set_depthBuffer w m).uniforms.texelSize = m.uniforms.texelSize ∧
    (set_depthBuffer w m).uniforms.cameraNearFar = m.uniforms.cameraNearFar ∧
    (set_depthBuffer w m).uniforms.scale = m.uniforms.scale :=
  ⟨rfl, rfl, rfl, rfl, rfl, rfl, rfl, rfl, rfl, rfl, rfl, rfl, rfl, rfl, rfl, rfl⟩

end BoxBlur
